import Mathlib

/-!
Shallow embedding of the `user_lib` identity/credential core
(`src/role.rs`, `src/user.rs`, `src/lib.rs`).

Modelling conventions:
* `uuid::Uuid` is an opaque 128-bit value; we model it as a wrapper around
  `Nat`.  Random generation (`Uuid::new_v4`) and wall-clock timestamps
  (`chrono::Local::now`) are non-deterministic, so the generated value is
  passed in as an explicit argument.
* `uuid::Uuid::parse_str` is a third-party parser; it is passed in as an
  explicit function argument of type `String → Option Uuid` (`none` models
  a parse error on malformed input).
* The Argon2 password-hash backend is third-party.  Its raw hash function
  is passed in as `H : String → String → Option String` (salt, then
  password, to hash output; `none` models an internal hashing failure,
  which the Rust code turns into `exit(1)`).  The PHC digest string
  produced by `hash_password(..).to_string()` and re-parsed by
  `PasswordHash::new` is modelled concretely by `phcRender` / `phcParse`
  below: a `'$'`-separated string embedding algorithm id, version,
  parameters, salt and hash, as in the real PHC format.
* Rust `Result<T, E>` becomes `Except E T`; a process `exit(1)` inside a
  function returning `Result` is modelled by wrapping the result in
  `Option`, with `none` for the aborted process.
* Rust `String::len` is the UTF-8 byte length, so it is translated as
  `String.utf8ByteSize`, and `String::is_empty` (defined as `len() == 0`)
  as `utf8ByteSize = 0`.
-/

namespace UserLib

/-- Model of `uuid::Uuid`: an opaque 128-bit value, represented by a `Nat`. -/
structure Uuid where
  val : Nat
deriving DecidableEq

/-- `uuid::Uuid::nil()`: the all-zero sentinel value, also `Uuid::default()`. -/
def Uuid.nil : Uuid := ⟨0⟩

/-- Timestamps (`chrono::DateTime<chrono::Local>`) are opaque to this core;
model them as `Nat`. -/
abbrev Timestamp := Nat

-- -- RoleId (src/role.rs) ------------------------------------------

/-- `RoleId(uuid::Uuid)` from `src/role.rs`. -/
structure RoleId where
  uuid : Uuid
deriving DecidableEq

/-- `impl Default for RoleId`: wraps `Uuid::nil()`. -/
def RoleId.default : RoleId := ⟨Uuid.nil⟩

/-- `RoleId::new()`: wraps a freshly generated UUID; the random draw is the
explicit argument `fresh`. -/
def RoleId.new (fresh : Uuid) : RoleId := ⟨fresh⟩

-- -- RoleName (src/role.rs) ----------------------------------------

/-- `RoleName(std::rc::Rc<str>)` from `src/role.rs`: an immutable, shareable
text value. -/
structure RoleName where
  text : String
deriving DecidableEq

/-- `impl Display for RoleName`: renders the wrapped text unchanged. -/
def RoleName.render (self : RoleName) : String := self.text

/-- `impl TryFrom<&str> for RoleName` (src/role.rs lines 57-69).
`value.is_empty()` is defined in Rust as `value.len() == 0`, and `value.len()` is the
UTF-8 byte length, hence `utf8ByteSize`.  The error type in the source is a
boxed message string; the two messages distinguish the two error kinds. -/
def RoleName.try_from (value : String) : Except String RoleName :=
  if value.utf8ByteSize = 0 then
    Except.error "Role name cannot be empty"
  else if value.utf8ByteSize < 3 then
    Except.error "Role name must be at least 3 characters long"
  else
    Except.ok ⟨value⟩

/-- `impl FromStr for RoleName`: delegates to `try_from`. -/
def RoleName.from_str (s : String) : Except String RoleName :=
  RoleName.try_from s

-- -- Role (src/role.rs) --------------------------------------------

/-- `Role { id, name }` from `src/role.rs`. -/
structure Role where
  id : RoleId
  name : RoleName
deriving DecidableEq

/-- `Role::new(name)`: assigns a fresh identifier (the random draw is the
explicit argument `fresh`) and stores the validated name. -/
def Role.new (fresh : Uuid) (name : RoleName) : Role :=
  { id := RoleId.new fresh, name := name }

-- -- UserId (src/user.rs) ------------------------------------------

/-- `UserId(uuid::Uuid)` from `src/user.rs`. -/
structure UserId where
  uuid : Uuid
deriving DecidableEq

/-- `impl Default for UserId`: wraps `Uuid::nil()`. -/
def UserId.default : UserId := ⟨Uuid.nil⟩

/-- `UserId::new()`: wraps a freshly generated UUID; the random draw is the
explicit argument `fresh`. -/
def UserId.new (fresh : Uuid) : UserId := ⟨fresh⟩

/-- `impl From<String> for UserId` (src/user.rs lines 51-55):
`UserId(uuid::Uuid::parse_str(&value).unwrap_or_default())`.  The
third-party parser is the explicit argument `parse_str`; `unwrap_or_default`
falls back to `Uuid::nil()` when parsing fails. -/
def UserId.from_string (parse_str : String → Option Uuid) (value : String) :
    UserId :=
  ⟨(parse_str value).getD Uuid.nil⟩

-- -- UserRole (src/user.rs) ----------------------------------------

/-- `UserRole { user_id, role_id }` from `src/user.rs`. -/
structure UserRole where
  user_id : UserId
  role_id : RoleId
deriving DecidableEq

/-- `UserRole::new(user_id, role_id)`. -/
def UserRole.new (user_id : UserId) (role_id : RoleId) : UserRole :=
  { user_id := user_id, role_id := role_id }

-- -- UserName (src/user.rs) ----------------------------------------

/-- `UserName(std::rc::Rc<str>)` from `src/user.rs`. -/
structure UserName where
  text : String
deriving DecidableEq

/-- `UserName::new(name)`: always succeeds, no validation. -/
def UserName.new (name : String) : UserName := ⟨name⟩

-- -- UserError (src/user.rs) ---------------------------------------

/-- `enum UserError` from `src/user.rs`. -/
inductive UserError where
  | PasswordMismatch
  | InvalidPassword
deriving DecidableEq

-- -- PHC digest string model ---------------------------------------

/-- Splits a character list on `'$'` separators, keeping empty segments:
the behaviour of splitting a PHC digest string at its field separators. -/
def splitDollar : List Char → List (List Char)
  | [] => [[]]
  | c :: cs =>
    if c = '$' then [] :: splitDollar cs
    else
      match splitDollar cs with
      | [] => [[c]]
      | g :: gs => (c :: g) :: gs

/-- The parameter/header portion of the PHC string produced by
`argon2.hash_password(..)` with `Argon2::default()` (Argon2id v19,
default cost parameters). -/
def phcHeader : String := "$argon2id$v=19$m=19456,t=2,p=1$"

/-- `PasswordHash::to_string()`: the self-describing PHC digest string
`$argon2id$v=19$<params>$<salt>$<hash>` embedding the salt and the raw
hash output. -/
def phcRender (salt hash : String) : String :=
  phcHeader ++ salt ++ "$" ++ hash

/-- The result of `PasswordHash::new`: the fields of a successfully parsed
PHC digest that verification uses (the embedded salt and hash). -/
structure ParsedHash where
  salt : String
  hash : String
deriving DecidableEq

/-- `PasswordHash::new(&self.0)`: parses a PHC digest string into its
fields; fails (`none`) when the string is not of the PHC shape
`$argon2id$v=19$<params>$<salt>$<hash>`. -/
def phcParse (s : String) : Option ParsedHash :=
  match splitDollar s.data with
  | [lead, alg, ver, _params, salt, hash] =>
    if lead = [] ∧ alg = "argon2id".data ∧ ver = "v=19".data then
      some ⟨⟨salt⟩, ⟨hash⟩⟩
    else
      none
  | _ => none

-- -- UserPassword (src/user.rs) ------------------------------------

/-- `UserPassword(String)` from `src/user.rs`: the stored digest string. -/
structure UserPassword where
  digest : String
deriving DecidableEq

/-- `UserPassword::new(password, confirm_password)`
(src/user.rs lines 292-310).  The random salt draw is the explicit
argument `salt`, and the third-party Argon2 hash function is `H`.
Control flow follows the source: first the mismatch check, then
`hash_password`; an `Err` from the hash backend is `exit(1)` in the source,
modelled as the outer `none`. -/
def UserPassword.new (H : String → String → Option String) (salt : String)
    (password confirm_password : String) :
    Option (Except UserError UserPassword) :=
  if password ≠ confirm_password then
    some (Except.error UserError.PasswordMismatch)
  else
    match H salt password with
    | some hash => some (Except.ok ⟨phcRender salt hash⟩)
    | none => none

/-- `argon2.verify_password(password.as_bytes(), &parsed_hash).is_ok()`:
recomputes the hash of the candidate over the embedded salt and compares
it with the embedded hash; an internal hash failure makes
`verify_password` return `Err`, hence `false` after `.is_ok()`. -/
def argonVerify (H : String → String → Option String) (password : String)
    (parsed : ParsedHash) : Bool :=
  match H parsed.salt password with
  | some h => decide (h = parsed.hash)
  | none => false

/-- `UserPassword::verify(&self, password)` (src/user.rs lines 312-327):
parses the stored digest; on parse failure returns `Ok(false)`, otherwise
`Ok` of the comparison result.  Both arms return `Ok`. -/
def UserPassword.verify (H : String → String → Option String)
    (self : UserPassword) (password : String) : Except String Bool :=
  match phcParse self.digest with
  | some parsed => Except.ok (argonVerify H password parsed)
  | none => Except.ok false

-- -- User (src/user.rs) --------------------------------------------

/-- `User` struct from `src/user.rs` (lines 141-149). -/
structure User where
  id : UserId
  name : UserName
  password : UserPassword
  created_at : Timestamp
  updated_at : Option Timestamp
  roles : List UserRole
deriving DecidableEq

/-- `User::new(name, password)` (src/user.rs lines 161-174): random id
generation and the wall clock are the explicit arguments `fresh` and
`now`; the update timestamp starts absent and the role collection empty.
The source always returns `Ok`. -/
def User.new (fresh : Uuid) (now : Timestamp) (name : UserName)
    (password : UserPassword) : Except String User :=
  Except.ok
    { id := UserId.new fresh
      name := name
      password := password
      created_at := now
      updated_at := none
      roles := [] }

/-- `User::verify_password(&self, password)` (src/user.rs lines 180-182):
`self.password.verify(password).is_ok()`. -/
def User.verify_password (H : String → String → Option String)
    (self : User) (password : String) : Bool :=
  (self.password.verify H password).isOk

/-- `User::with_role(self, role_id)` (src/user.rs lines 193-199): pushes a
new `UserRole { user_id: self.id, role_id }` onto the role collection. -/
def User.with_role (self : User) (role_id : RoleId) : User :=
  { self with roles := self.roles ++ [⟨self.id, role_id⟩] }

/-- `User::add_role(&mut self, role_id)` (src/user.rs lines 210-216): same
mutation as `with_role`, in place. -/
def User.add_role (self : User) (role_id : RoleId) : User :=
  { self with roles := self.roles ++ [⟨self.id, role_id⟩] }

/-- `User::remove_role(&mut self, role_id)` (src/user.rs lines 227-230):
`self.roles.retain(|r| r.role_id != role_id)`. -/
def User.remove_role (self : User) (role_id : RoleId) : User :=
  { self with roles := self.roles.filter (fun r => decide (r.role_id ≠ role_id)) }

/-- The ownership invariant of the role collection: every association
record carries the id of the owning user. -/
def User.rolesConsistent (u : User) : Prop :=
  ∀ r ∈ u.roles, r.user_id = u.id

-- -- lib.rs --------------------------------------------------------

/-- `add(left, right)` from `src/lib.rs`, on 64-bit unsigned integers. -/
def add (left right : Nat) : Nat := (left + right) % 2 ^ 64

/-- A concrete stand-in for the third-party Argon2 hash function, used to
evaluate the model on closed inputs: it pairs the password with the salt. -/
def hashModel (salt password : String) : Option String :=
  some (password ++ "#" ++ salt)

/-- A concrete parser that rejects every input, standing in for
`uuid::Uuid::parse_str` on malformed text. -/
def parseNone : String → Option Uuid := fun _ => none

/-- A concrete user value used to evaluate the role operations. -/
def sampleUser : User :=
  { id := ⟨⟨5⟩⟩
    name := ⟨"bob"⟩
    password := ⟨"digest"⟩
    created_at := 0
    updated_at := none
    roles := [⟨⟨⟨5⟩⟩, ⟨⟨2⟩⟩⟩] }

/-- The user record that `User.new ⟨⟨7⟩⟩ 0 ⟨"bob"⟩ ⟨"digest"⟩` returns. -/
def freshUser : User :=
  { id := ⟨⟨7⟩⟩
    name := ⟨"bob"⟩
    password := ⟨"digest"⟩
    created_at := 0
    updated_at := none
    roles := [] }

/-- A concrete role id used to evaluate the role operations. -/
def rid1 : RoleId := ⟨⟨1⟩⟩

/-- A second concrete role id, distinct from `rid1`. -/
def rid2 : RoleId := ⟨⟨2⟩⟩

end UserLib

deriving instance DecidableEq for Except

namespace UserLib

-- -- Helper lemmas on the PHC digest codec --------------------------

theorem splitDollar_cons_dollar (cs : List Char) :
    splitDollar ('$' :: cs) = [] :: splitDollar cs := by
  simp [splitDollar]

theorem splitDollar_no_dollar (a : List Char) (h : '$' ∉ a) :
    splitDollar a = [a] := by
  induction a with
  | nil => rfl
  | cons c cs ih =>
    have hc : c ≠ '$' := fun hceq => h (hceq ▸ List.mem_cons_self c cs)
    have hcs : '$' ∉ cs := fun hmem => h (List.mem_cons_of_mem c hmem)
    simp [splitDollar, hc, ih hcs]

theorem splitDollar_append (a rest : List Char) (h : '$' ∉ a) :
    splitDollar (a ++ '$' :: rest) = a :: splitDollar rest := by
  induction a with
  | nil => simp [splitDollar_cons_dollar]
  | cons c cs ih =>
    have hc : c ≠ '$' := fun hceq => h (hceq ▸ List.mem_cons_self c cs)
    have hcs : '$' ∉ cs := fun hmem => h (List.mem_cons_of_mem c hmem)
    simp [splitDollar, hc, ih hcs]

theorem phcRender_data (salt hash : String) :
    (phcRender salt hash).data =
      '$' :: ("argon2id".data ++ '$' :: ("v=19".data ++ '$' ::
        ("m=19456,t=2,p=1".data ++ '$' :: (salt.data ++ '$' :: hash.data)))) := by
  have h2 : phcHeader.data = '$' :: ("argon2id".data ++ '$' :: ("v=19".data ++ '$' ::
      ("m=19456,t=2,p=1".data ++ ['$']))) := by decide
  simp [phcRender, String.data_append, h2]

/-- Round trip of the PHC codec: a rendered digest whose salt and hash are
free of the separator parses back to its fields.  The real PHC salt and
hash are base64 text and never contain the separator. -/
theorem phcParse_phcRender (salt hash : String)
    (hs : '$' ∉ salt.data) (hh : '$' ∉ hash.data) :
    phcParse (phcRender salt hash) = some ⟨salt, hash⟩ := by
  have key : splitDollar (phcRender salt hash).data =
      [[], "argon2id".data, "v=19".data, "m=19456,t=2,p=1".data,
        salt.data, hash.data] := by
    rw [phcRender_data, splitDollar_cons_dollar,
      splitDollar_append _ _ (by decide), splitDollar_append _ _ (by decide),
      splitDollar_append _ _ (by decide), splitDollar_append _ _ hs,
      splitDollar_no_dollar _ hh]
  simp [phcParse, key]

-- -- Claim theorems ------------------------------------------------

/-- C1 (code bug): the claim requires that verifying the altered secret
`s ++ "x"` via `User::verify_password` returns `false`.  In the code,
`User::verify_password` is `self.password.verify(password).is_ok()`, and
`UserPassword::verify` returns `Ok` in both of its match arms, so
`verify_password` returns `true` for every user and every candidate
secret, matching or not.  The inner `UserPassword::verify` does report the
mismatch (`Ok(false)`), as the concrete conjuncts show, and `is_ok()`
discards it. -/
theorem user_verify_password_always_true :
    (∀ (H : String → String → Option String) (u : User) (pw : String),
      User.verify_password H u pw = true) ∧
    UserPassword.new hashModel "SALT" "pw" "pw" =
      some (Except.ok ⟨phcRender "SALT" "pw#SALT"⟩) ∧
    UserPassword.verify hashModel ⟨phcRender "SALT" "pw#SALT"⟩ "pw" =
      Except.ok true ∧
    UserPassword.verify hashModel ⟨phcRender "SALT" "pw#SALT"⟩ "pwx" =
      Except.ok false ∧
    User.verify_password hashModel
      { sampleUser with password := ⟨phcRender "SALT" "pw#SALT"⟩ } "pwx" = true := by
  refine ⟨?_, by decide, by decide, by decide, by decide⟩
  intro H u pw
  unfold User.verify_password UserPassword.verify
  cases phcParse u.password.digest <;> rfl

/-- C2: `UserPassword::new(s1, s2)` returns `Err(PasswordMismatch)` exactly
when `s1 ≠ s2` (exact string comparison), and when `s1 = s2` and the hash
backend returns a hash it succeeds, storing the salted PHC digest string. -/
theorem password_new_mismatch_iff (H : String → String → Option String)
    (salt s1 s2 : String) :
    (UserPassword.new H salt s1 s2 =
        some (Except.error UserError.PasswordMismatch) ↔ s1 ≠ s2) ∧
    (∀ h, s1 = s2 → H salt s1 = some h →
      UserPassword.new H salt s1 s2 = some (Except.ok ⟨phcRender salt h⟩)) := by
  constructor
  · constructor
    · intro heq h12
      rw [UserPassword.new, if_neg (not_not_intro h12)] at heq
      cases hH : H salt s1 <;> simp [hH] at heq
    · intro hne
      simp [UserPassword.new, hne]
  · intro h h12 hH
    subst h12
    rw [UserPassword.new, if_neg (not_not_intro rfl), hH]

/-- Witness for C2 at concrete inputs: equal secrets succeed with the
rendered digest, unequal secrets fail with the mismatch error. -/
theorem password_new_mismatch_iff_witness :
    UserPassword.new hashModel "SALT" "pw" "pw" =
      some (Except.ok ⟨phcRender "SALT" "pw#SALT"⟩) ∧
    UserPassword.new hashModel "SALT" "pw" "qw" =
      some (Except.error UserError.PasswordMismatch) :=
  ⟨(password_new_mismatch_iff hashModel "SALT" "pw" "pw").2 "pw#SALT" rfl rfl,
    (password_new_mismatch_iff hashModel "SALT" "pw" "qw").1.mpr (by decide)⟩

/-- C3: `UserPassword::verify` never returns an error, for any stored
digest and any candidate; when the stored digest fails to parse as a
password hash it returns `Ok(false)`, the same value a non-matching
secret produces. -/
theorem password_verify_never_errors (H : String → String → Option String)
    (digest candidate : String) :
    (∀ e, UserPassword.verify H ⟨digest⟩ candidate ≠ Except.error e) ∧
    (phcParse digest = none →
      UserPassword.verify H ⟨digest⟩ candidate = Except.ok false) := by
  constructor
  · intro e
    unfold UserPassword.verify
    cases phcParse digest <;> simp
  · intro hparse
    unfold UserPassword.verify
    rw [hparse]

/-- Witness for C3: a digest that is not a PHC string verifies to
`Ok(false)` and is not an error. -/
theorem password_verify_never_errors_witness :
    UserPassword.verify hashModel ⟨"garbage"⟩ "pw" = Except.ok false ∧
    UserPassword.verify hashModel ⟨"garbage"⟩ "pw" ≠ Except.error "boom" :=
  ⟨(password_verify_never_errors hashModel "garbage" "pw").2 (by decide),
    (password_verify_never_errors hashModel "garbage" "pw").1 "boom"⟩

/-- C4: `RoleName::try_from` fails with the empty-name error when the text
has byte length 0, fails with the too-short error when the byte length is
in [1,2], and otherwise succeeds with a `RoleName` whose rendered
(Display) text equals the input; `from_str` delegates to `try_from`. -/
theorem role_name_try_from_spec (t : String) :
    (t.utf8ByteSize = 0 →
      RoleName.try_from t = Except.error "Role name cannot be empty") ∧
    (1 ≤ t.utf8ByteSize → t.utf8ByteSize ≤ 2 →
      RoleName.try_from t =
        Except.error "Role name must be at least 3 characters long") ∧
    (3 ≤ t.utf8ByteSize →
      RoleName.try_from t = Except.ok ⟨t⟩ ∧ (RoleName.mk t).render = t) ∧
    RoleName.from_str t = RoleName.try_from t := by
  refine ⟨?_, ?_, ?_, rfl⟩
  · intro h0
    simp [RoleName.try_from, h0]
  · intro h1 h2
    rw [RoleName.try_from, if_neg (by omega), if_pos (by omega)]
  · intro h3
    rw [RoleName.try_from, if_neg (by omega), if_neg (by omega)]
    exact ⟨rfl, rfl⟩

/-- Witness for C4 at the three byte lengths 0, 2 and 3. -/
theorem role_name_try_from_spec_witness :
    RoleName.try_from "" = Except.error "Role name cannot be empty" ∧
    RoleName.try_from "ab" =
      Except.error "Role name must be at least 3 characters long" ∧
    RoleName.try_from "abc" = Except.ok ⟨"abc"⟩ :=
  ⟨(role_name_try_from_spec "").1 (by decide),
    (role_name_try_from_spec "ab").2.1 (by decide) (by decide),
    ((role_name_try_from_spec "abc").2.2.1 (by decide)).1⟩

/-- C7: when the third-party UUID parser rejects the input (malformed
text), `impl From<String> for UserId` silently produces the default,
i.e. the nil all-zero identifier, instead of an error. -/
theorem user_id_parse_fallback (parse_str : String → Option Uuid)
    (value : String) (h : parse_str value = none) :
    UserId.from_string parse_str value = UserId.default ∧
    UserId.default = ⟨Uuid.nil⟩ ∧ Uuid.nil.val = 0 := by
  refine ⟨?_, rfl, rfl⟩
  simp [UserId.from_string, UserId.default, h]

/-- Witness for C7: a parser that rejects the malformed text yields the
nil identifier. -/
theorem user_id_parse_fallback_witness :
    UserId.from_string parseNone "not-a-uuid" = UserId.default ∧
    UserId.default = ⟨Uuid.nil⟩ ∧ Uuid.nil.val = 0 :=
  user_id_parse_fallback parseNone "not-a-uuid" rfl

/-- C10: RoleName validation measures UTF-8 bytes, not characters: the
one-character text made of the euro sign has byte length 3, so
construction succeeds even though it has fewer than 3 characters. -/
theorem role_name_length_is_bytes :
    "€".length = 1 ∧ 3 ≤ "€".utf8ByteSize ∧
    RoleName.try_from "€" = Except.ok ⟨"€"⟩ := by
  refine ⟨by decide, by decide, by decide⟩

/-- C5: `User::remove_role` removes every association whose role id
matches, is the identity (a no-op, not an error) when none match, and a
fresh user that attaches then detaches a role ends with an empty
association collection. -/
theorem remove_role_spec (u : User) (rid : RoleId) :
    (∀ r ∈ (u.remove_role rid).roles, r.role_id ≠ rid) ∧
    ((∀ r ∈ u.roles, r.role_id ≠ rid) → u.remove_role rid = u) ∧
    (∀ fresh now name pw u0, User.new fresh now name pw = Except.ok u0 →
      ((u0.with_role rid).remove_role rid).roles = []) := by
  refine ⟨?_, ?_, ?_⟩
  · intro r hr
    rw [User.remove_role] at hr
    have := (List.mem_filter.mp hr).2
    simpa using this
  · intro hall
    have hfil : u.roles.filter (fun r => decide (r.role_id ≠ rid)) = u.roles :=
      List.filter_eq_self.mpr (fun a ha => by simpa using hall a ha)
    rw [User.remove_role, hfil]
  · intro fresh now name pw u0 h0
    rw [User.new] at h0
    cases h0
    simp [User.with_role, User.remove_role]

/-- Witness for C5: on the sample user, every remaining association after
detaching `rid1` misses `rid1`, detaching an unattached role is the
identity, and the fresh attach/detach round trip is empty. -/
theorem remove_role_spec_witness :
    UserRole.role_id ⟨⟨⟨5⟩⟩, rid2⟩ ≠ rid1 ∧
    sampleUser.remove_role rid1 = sampleUser ∧
    ((freshUser.with_role rid1).remove_role rid1).roles = [] :=
  ⟨(remove_role_spec sampleUser rid1).1 ⟨⟨⟨5⟩⟩, rid2⟩ (by decide),
    (remove_role_spec sampleUser rid1).2.1 (by decide),
    (remove_role_spec sampleUser rid1).2.2 ⟨7⟩ 0 ⟨"bob"⟩ ⟨"digest"⟩
      freshUser rfl⟩

/-- C6: `with_role` and `add_role` append without deduplication: attaching
the same role id twice adds two associations, and from a fresh user the
collection has length 2, not 1. -/
theorem role_attach_no_dedup (u : User) (rid : RoleId) :
    ((u.with_role rid).with_role rid).roles.length = u.roles.length + 2 ∧
    ((u.add_role rid).add_role rid).roles.length = u.roles.length + 2 ∧
    (∀ fresh now name pw u0, User.new fresh now name pw = Except.ok u0 →
      ((u0.with_role rid).add_role rid).roles.length = 2) := by
  refine ⟨by simp [User.with_role], by simp [User.add_role], ?_⟩
  intro fresh now name pw u0 h0
  rw [User.new] at h0
  cases h0
  simp [User.with_role, User.add_role]

/-- Witness for C6: the fresh-user double attachment has length 2. -/
theorem role_attach_no_dedup_witness :
    ((freshUser.with_role rid1).add_role rid1).roles.length = 2 :=
  (role_attach_no_dedup sampleUser rid1).2.2 ⟨7⟩ 0 ⟨"bob"⟩ ⟨"digest"⟩
    freshUser rfl

/-- C8: the ownership invariant (the user id of every association equals
the id of the owning user) holds for a freshly constructed user and is preserved
by `with_role`, `add_role` and `remove_role`. -/
theorem roles_consistent_invariant :
    (∀ fresh now name pw u, User.new fresh now name pw = Except.ok u →
      u.rolesConsistent) ∧
    (∀ (u : User) (rid : RoleId), u.rolesConsistent →
      (u.with_role rid).rolesConsistent) ∧
    (∀ (u : User) (rid : RoleId), u.rolesConsistent →
      (u.add_role rid).rolesConsistent) ∧
    (∀ (u : User) (rid : RoleId), u.rolesConsistent →
      (u.remove_role rid).rolesConsistent) := by
  refine ⟨?_, ?_, ?_, ?_⟩
  · intro fresh now name pw u h0
    rw [User.new] at h0
    cases h0
    intro r hr
    simp at hr
  · intro u rid hinv r hr
    rw [User.with_role] at hr
    rcases List.mem_append.mp hr with hold | hnew
    · exact hinv r hold
    · rw [List.mem_singleton.mp hnew]
      rfl
  · intro u rid hinv r hr
    rw [User.add_role] at hr
    rcases List.mem_append.mp hr with hold | hnew
    · exact hinv r hold
    · rw [List.mem_singleton.mp hnew]
      rfl
  · intro u rid hinv r hr
    rw [User.remove_role] at hr
    exact hinv r (List.mem_filter.mp hr).1

/-- Witness for C8: the invariant, evaluated on concrete users, after
construction and after each of the three operations. -/
theorem roles_consistent_invariant_witness :
    freshUser.rolesConsistent ∧
    (sampleUser.with_role rid1).rolesConsistent ∧
    (sampleUser.add_role rid1).rolesConsistent ∧
    (sampleUser.remove_role rid2).rolesConsistent :=
  ⟨roles_consistent_invariant.1 ⟨7⟩ 0 ⟨"bob"⟩ ⟨"digest"⟩ freshUser rfl,
    roles_consistent_invariant.2.1 sampleUser rid1
      (by unfold User.rolesConsistent; decide),
    roles_consistent_invariant.2.2.1 sampleUser rid1
      (by unfold User.rolesConsistent; decide),
    roles_consistent_invariant.2.2.2 sampleUser rid2
      (by unfold User.rolesConsistent; decide)⟩

/-- C9: the role attach and detach operations change only the role
collection — id, name, password and creation timestamp are unchanged and
the update timestamp is preserved — and `User::new` leaves the update
timestamp absent, so no operation of this core ever sets it. -/
theorem role_ops_frame (u : User) (rid : RoleId) (fresh : Uuid)
    (now : Timestamp) (name : UserName) (pw : UserPassword) :
    ((u.with_role rid).id = u.id ∧ (u.with_role rid).name = u.name ∧
      (u.with_role rid).password = u.password ∧
      (u.with_role rid).created_at = u.created_at ∧
      (u.with_role rid).updated_at = u.updated_at) ∧
    ((u.add_role rid).id = u.id ∧ (u.add_role rid).name = u.name ∧
      (u.add_role rid).password = u.password ∧
      (u.add_role rid).created_at = u.created_at ∧
      (u.add_role rid).updated_at = u.updated_at) ∧
    ((u.remove_role rid).id = u.id ∧ (u.remove_role rid).name = u.name ∧
      (u.remove_role rid).password = u.password ∧
      (u.remove_role rid).created_at = u.created_at ∧
      (u.remove_role rid).updated_at = u.updated_at) ∧
    (∃ u0, User.new fresh now name pw = Except.ok u0 ∧
      u0.updated_at = none) :=
  ⟨⟨rfl, rfl, rfl, rfl, rfl⟩, ⟨rfl, rfl, rfl, rfl, rfl⟩,
    ⟨rfl, rfl, rfl, rfl, rfl⟩, ⟨_, rfl, rfl⟩⟩

end UserLib
